import Mathlib

/-!
Verification of the ByteGrader autograder dispatch service (Go) against its
natural-language specification.

This file shallowly embeds the parts of the server relevant to the checked
claims:
  * the admission pipeline (`server/auth.go`): client-IP extraction, the IP
    allowlist check with its CIDR matching, API-key authentication and the
    username requirement, and the middleware wiring of the HTTP routes
    (registered in the current `main`);
  * assignment-id validation against the YAML registry
    (`server/main.go`: `isValidAssignmentID`, `getAssignmentConfig`);
  * the `/submit` handler pipeline (Content-Length pre-check, multipart
    parsing, file-size check, workspace creation, archive write, assignment
    validation, job creation);
  * the grading dispatcher's result collection (`server/container.go`:
    effective timeout selection, `readResultsFromSharedVolume`, and the
    exit-code / `output.json` / container-log arbitration);
  * the job store (`server/queue.go`: `updateJob` and the worker's status
    updates).

Go strings are modelled as Lean `String`s (both are sequences of Unicode
scalar values; Go `len` counts UTF-8 bytes and is modelled by `goLen`).
Go's `int64` arithmetic is modelled on `Int` with an explicit two's-complement
wrap (`wrap64`) where products can overflow.  Filesystem and Docker effects
are modelled by explicit inputs (success flags, file contents, exit codes,
logs) and by threading an explicit server state.
-/

/-- Two's-complement wrap of an unbounded integer into the `int64` range,
modelling Go's 64-bit signed arithmetic. -/
def wrap64 (x : Int) : Int := (x + 2 ^ 63) % 2 ^ 64 - 2 ^ 63

/-! ## Core data model (queue.go lines 14-32) -/

/-- Grading result, from `JobResult` in `server/queue.go`.  The Go `Score`
field is a `float64`; no claim performs float arithmetic on it, so it is
modelled by `Rat`. -/
structure JobResult where
  score : Rat
  feedback : String
  error : String
deriving DecidableEq, Repr

/-- A grading job, from `Job` in `server/queue.go`.  Timestamps are modelled
as abstract integers. -/
structure Job where
  id : String
  filename : String
  filePath : String
  size : Int
  status : String
  result : Option JobResult
  createdAt : Int
  updatedAt : Int
  assignmentID : String
  username : String
deriving DecidableEq, Repr

/-- The admission-relevant part of the server `Config`
(`server/config.go`). -/
structure Config where
  requireAPIKey : Bool
  validAPIKeys : List String
  allowedIPs : List String
deriving DecidableEq, Repr

/-- An incoming HTTP request, as seen by the middleware.  `header` models
`r.Header.Get`: it returns the header value, or `""` when the header is
absent. -/
structure HttpRequest where
  method : String
  header : String → String
  remoteAddr : String

/-! ## Client IP extraction (auth.go lines 47-78) -/

/-- Go `strings.TrimSpace` restricted to ASCII whitespace (the claims never
exercise non-ASCII whitespace). -/
def isSpaceChar (c : Char) : Bool := c == ' ' || c == '\t' || c == '\n' || c == '\r'

/-- Trim leading and trailing whitespace, modelling `strings.TrimSpace`. -/
def goTrimSpace (s : String) : String :=
  ⟨((s.data.dropWhile isSpaceChar).reverse.dropWhile isSpaceChar).reverse⟩

/-- Host part of `net.SplitHostPort` for the common forms `host:port` and
`[host]:port`; other forms (no colon, several unbracketed colons) are
modelled as the error branch (`none`), matching the source's fallback. -/
def splitHostPortHost (s : String) : Option String :=
  match s.data with
  | '[' :: rest =>
      let host := rest.takeWhile (fun c => c != ']')
      if rest.drop host.length == (']' :: ':' :: (rest.drop (host.length + 2))) then
        some ⟨host⟩
      else none
  | cs =>
      if cs.count ':' == 1 then some ⟨cs.takeWhile (fun c => c != ':')⟩ else none

/-- Extract the client IP from the request headers; translation of
`getClientIP` in `server/auth.go` lines 47-78.  `X-Forwarded-For` may hold
several comma-separated IPs; the first one is used (`strings.Split` + index 0
is the prefix before the first comma). -/
def getClientIP (req : HttpRequest) : String :=
  let xff := req.header "X-Forwarded-For"
  if xff != "" then
    goTrimSpace ⟨xff.data.takeWhile (fun c => c != ',')⟩
  else
    let realIP := req.header "X-Real-IP"
    if realIP != "" then realIP
    else
      let cfIP := req.header "CF-Connecting-IP"
      if cfIP != "" then cfIP
      else
        match splitHostPortHost req.remoteAddr with
        | some host => host
        | none => req.remoteAddr

/-! ## IPv4 / CIDR parsing (modelling the `net` package calls made by
`validateSourceIP`: `net.ParseCIDR`, `net.ParseIP`, `IPNet.Contains`).
Only IPv4 dotted-quad literals are modelled (Go 1.17+ semantics: no leading
zeros); strings that are not IPv4 literals are modelled as parse failures,
which the source skips exactly like `err != nil`. -/

/-- Split a character list on a separator character (`strings.Split`). -/
def splitOnChar (sep : Char) : List Char → List (List Char)
  | [] => [[]]
  | c :: rest =>
      let r := splitOnChar sep rest
      if c == sep then [] :: r
      else
        match r with
        | h :: t => (c :: h) :: t
        | [] => [[c]]

/-- Decimal value of a digit list (only applied to all-digit lists). -/
def digitsToNat (cs : List Char) : Nat :=
  cs.foldl (fun a c => a * 10 + (c.toNat - 48)) 0

/-- Parse one dotted-quad octet: 1-3 digits, value 0-255, no leading zero. -/
def parseOctet (cs : List Char) : Option Nat :=
  if cs.length = 0 || 3 < cs.length then none
  else if !cs.all (fun c => c.isDigit) then none
  else if 1 < cs.length && cs.headD '0' == '0' then none
  else
    let v := digitsToNat cs
    if 255 < v then none else some v

/-- Parse an IPv4 dotted-quad literal into its 32-bit value. -/
def parseIPv4 (s : String) : Option Nat :=
  match splitOnChar '.' s.data with
  | [a, b, c, d] =>
      match parseOctet a, parseOctet b, parseOctet c, parseOctet d with
      | some x, some y, some z, some w => some (((x * 256 + y) * 256 + z) * 256 + w)
      | _, _, _, _ => none
  | _ => none

/-- Parse a CIDR mask length: 1-2 digits, 0-32, no leading zero. -/
def parseMaskLen (cs : List Char) : Option Nat :=
  if cs.length = 0 || 2 < cs.length then none
  else if !cs.all (fun c => c.isDigit) then none
  else if 1 < cs.length && cs.headD '0' == '0' then none
  else
    let v := digitsToNat cs
    if 32 < v then none else some v

/-- Whether allowlist entry `entry` is a CIDR block containing `clientIP`.
Translation of auth.go lines 106-112: the entry must contain a `/`
(`strings.Contains`), parse as a CIDR (`net.ParseCIDR`), and the network
must contain the parsed client IP (`ipNet.Contains(net.ParseIP(clientIP))`;
an unparseable client IP yields `nil`, which is never contained). -/
def cidrContains (entry clientIP : String) : Bool :=
  if entry.data.contains '/' then
    match splitOnChar '/' entry.data with
    | [ipPart, maskPart] =>
        match parseIPv4 ⟨ipPart⟩, parseMaskLen maskPart, parseIPv4 clientIP with
        | some net, some n, some ip => (ip >>> (32 - n)) == (net >>> (32 - n))
        | _, _, _ => false
    | _ => false
  else false

/-! ## IP allowlist check (auth.go lines 80-116) -/

/-- The localhost forms special-cased by `validateSourceIP` (auth.go
line 90). -/
def isLocalClient (ip : String) : Bool :=
  ip == "127.0.0.1" || ip == "::1" || ip == "localhost"

/-- First loop of `validateSourceIP` (auth.go lines 93-97): localhost is
allowed only when explicitly configured. -/
def localhostConfigured : List String → Bool
  | [] => false
  | e :: rest =>
      if e == "127.0.0.1" || e == "localhost" then true else localhostConfigured rest

/-- Second loop of `validateSourceIP` (auth.go lines 101-113): literal
string match or CIDR containment, with early return. -/
def ipWhitelistLoop (clientIP : String) : List String → Bool
  | [] => false
  | e :: rest =>
      if clientIP == e then true
      else if cidrContains e clientIP then true
      else ipWhitelistLoop clientIP rest

/-- Translation of `validateSourceIP` (auth.go lines 80-116). -/
def validateSourceIP (cfg : Config) (req : HttpRequest) : Bool :=
  if cfg.allowedIPs.isEmpty then true
  else
    let clientIP := getClientIP req
    if isLocalClient clientIP && localhostConfigured cfg.allowedIPs then true
    else ipWhitelistLoop clientIP cfg.allowedIPs

/-! ## API key authentication (auth.go lines 21-45) -/

/-- The key the request supplies: header `X-API-Key`, else the
`Authorization: Bearer` token, else `""` (auth.go lines 27-35). -/
def suppliedAPIKey (req : HttpRequest) : String :=
  let apiKey := req.header "X-API-Key"
  if apiKey == "" then
    let authHeader := req.header "Authorization"
    if "Bearer ".data.isPrefixOf authHeader.data then ⟨authHeader.data.drop 7⟩
    else apiKey
  else apiKey

/-- The key-matching loop of `authenticateRequest` (auth.go lines 38-42).
Note the source compares with Go's plain `==` on strings, which is NOT a
constant-time comparison; the embedding can only capture its input-output
behaviour. -/
def keyMatchLoop (apiKey : String) : List String → Bool
  | [] => false
  | k :: rest => if apiKey == k then true else keyMatchLoop apiKey rest

/-- Translation of `authenticateRequest` (auth.go lines 21-45). -/
def authenticateRequest (cfg : Config) (req : HttpRequest) : Bool :=
  if !cfg.requireAPIKey then true
  else keyMatchLoop (suppliedAPIKey req) cfg.validAPIKeys

/-! ## Username requirement and middleware (auth.go lines 118-223) -/

/-- Translation of `getUsername` (auth.go lines 118-122). -/
def getUsername (req : HttpRequest) : String := req.header "X-Username"

/-- Translation of `validateUsername` (auth.go lines 124-128). -/
def validateUsername (req : HttpRequest) : Bool := getUsername req != ""

/-- Outcome of the security middleware for one request: either an early
response, or the request is passed to the wrapped handler. -/
inductive SecOutcome where
  | preflight200
  | forbidden403
  | unauthorized401
  | badRequest400
  | passed
  | notFound
deriving DecidableEq, Repr

/-- Translation of the check sequence of `securityMiddleware` (auth.go
lines 174-218): CORS preflight, IP allowlist (403), API key (401), username
(400), then pass through to the handler. -/
def securityMiddleware (cfg : Config) (req : HttpRequest) : SecOutcome :=
  if req.method == "OPTIONS" then .preflight200
  else if !validateSourceIP cfg req then .forbidden403
  else if !authenticateRequest cfg req then .unauthorized401
  else if !validateUsername req then .badRequest400
  else .passed

/-- Translation of the check sequence of `adminSecurityMiddleware` (auth.go
lines 131-166): same as `securityMiddleware` but with no username check.
This wrapper is defined in the source but is wired to no route. -/
def adminSecurityMiddleware (cfg : Config) (req : HttpRequest) : SecOutcome :=
  if req.method == "OPTIONS" then .preflight200
  else if !validateSourceIP cfg req then .forbidden403
  else if !authenticateRequest cfg req then .unauthorized401
  else .passed

/-- The route registrations of the current `main` (the `mux.HandleFunc`
calls): `/submit`, `/status/` (subtree), `/queue` and `/config` are wrapped
in `protectedEndpoint` (that is, `securityMiddleware`); `/health` and
`/version` are registered with no middleware at all.  Returns the security
outcome the middleware layer produces for the request. -/
def routeSecurity (cfg : Config) (req : HttpRequest) (path : String) : SecOutcome :=
  if path == "/submit" then securityMiddleware cfg req
  else if "/status/".data.isPrefixOf path.data then securityMiddleware cfg req
  else if path == "/queue" then securityMiddleware cfg req
  else if path == "/config" then securityMiddleware cfg req
  else if path == "/health" then .passed
  else if path == "/version" then .passed
  else .notFound

/-! ## Concrete fixtures for the admission claims -/

/-- An admission configuration with both protections on: one allowlisted IP
and one valid API key. -/
def cfgAdmin : Config :=
  { requireAPIKey := true
    validAPIKeys := ["key-1"]
    allowedIPs := ["1.2.3.4"] }

/-- A request from the allowlisted IP carrying the valid API key but no
`X-Username` header. -/
def reqNoUsername : HttpRequest :=
  { method := "GET"
    header := fun h =>
      if h == "X-Forwarded-For" then "1.2.3.4"
      else if h == "X-API-Key" then "key-1"
      else ""
    remoteAddr := "9.9.9.9:1234" }

/-- A request with no headers at all, from an IP that is not allowlisted. -/
def reqBare : HttpRequest :=
  { method := "GET"
    header := fun _ => ""
    remoteAddr := "8.8.8.8:4321" }

/-! ## Loop-to-membership helper lemmas -/

/-- Config with one valid API key and no IP allowlist. -/
def cfgKeyed : Config :=
  { requireAPIKey := true
    validAPIKeys := ["secret-key-1"]
    allowedIPs := [] }

/-- A request supplying a wrong API key in `X-API-Key`. -/
def reqWrongKey : HttpRequest :=
  { method := "GET"
    header := fun h => if h == "X-API-Key" then "wrong" else if h == "X-Username" then "alice" else ""
    remoteAddr := "2.2.2.2:80" }

/-- A request supplying the valid key as an `Authorization: Bearer` token. -/
def reqBearer : HttpRequest :=
  { method := "GET"
    header := fun h => if h == "Authorization" then "Bearer secret-key-1" else ""
    remoteAddr := "2.2.2.2:80" }

/-- Allowlist containing only the IPv4 loopback literal. -/
def cfgLocalhostOnly : Config :=
  { requireAPIKey := false
    validAPIKeys := []
    allowedIPs := ["127.0.0.1"] }

/-- A request whose extracted client IP is the IPv6 loopback `::1`. -/
def reqIPv6Loopback : HttpRequest :=
  { method := "GET"
    header := fun h => if h == "X-Forwarded-For" then "::1" else ""
    remoteAddr := "" }

/-- Allowlist with one CIDR entry. -/
def cfgCIDR : Config :=
  { requireAPIKey := false
    validAPIKeys := []
    allowedIPs := ["10.0.0.0/8"] }

/-- A request from inside the CIDR block. -/
def reqFromTen : HttpRequest :=
  { method := "GET"
    header := fun h => if h == "X-Forwarded-For" then "10.1.2.3" else ""
    remoteAddr := "" }

/-- A request from outside the CIDR block. -/
def reqOutsideTen : HttpRequest :=
  { method := "GET"
    header := fun h => if h == "X-Forwarded-For" then "11.1.2.3" else ""
    remoteAddr := "" }


/-! ## Assignment registry (server/main.go) -/

/-- Per-assignment configuration from the YAML registry (`AssignmentConfig`
in `server/main.go`; the `environment` and `resources` fields are omitted:
no claim depends on them beyond `timeoutMinutes` and `enabled`). -/
structure AssignmentConfig where
  image : String
  description : String
  timeoutMinutes : Int
  enabled : Bool
deriving DecidableEq, Repr

/-- The grader registry: a YAML mapping of assignment ids to configurations
(`GraderRegistry` in `server/main.go`).  A Go/YAML map has unique keys;
it is modelled as an association list. -/
structure GraderRegistry where
  assignments : List (String × AssignmentConfig)
deriving DecidableEq, Repr

/-- Go map lookup `registry.Assignments[assignmentID]`. -/
def lookupAssignment : List (String × AssignmentConfig) → String → Option AssignmentConfig
  | [], _ => none
  | (k, a) :: rest, id => if k == id then some a else lookupAssignment rest id

/-- Translation of `getAssignmentConfig` (main.go lines 572-592).  The
registry file is re-read on every call; `none` models a read or YAML-parse
failure of `loadGraderRegistry`. -/
def getAssignmentConfig (reg? : Option GraderRegistry) (assignmentID : String) :
    Except String AssignmentConfig :=
  match reg? with
  | none => .error "failed to read or parse registry"
  | some reg =>
      match lookupAssignment reg.assignments assignmentID with
      | none => .error "assignment not found in registry"
      | some a => if !a.enabled then .error "assignment is disabled" else .ok a

/-- Number of UTF-8 bytes of one scalar value (so that Go `len` on a string
can be modelled; this mirrors the UTF-8 width table). -/
def utf8Bytes (c : Char) : Nat :=
  if c.toNat ≤ 127 then 1
  else if c.toNat ≤ 2047 then 2
  else if c.toNat ≤ 65535 then 3
  else 4

/-- Go `len(s)` on a string: the number of UTF-8 bytes. -/
def goLen (s : String) : Nat := (s.data.map utf8Bytes).sum

/-- The character class accepted by the validation loop of
`isValidAssignmentID` (main.go lines 774-781); Go compares runes, that is,
Unicode scalar values. -/
def assignmentCharOk (c : Char) : Bool :=
  (decide (97 ≤ c.toNat) && decide (c.toNat ≤ 122))
    || (decide (65 ≤ c.toNat) && decide (c.toNat ≤ 90))
    || (decide (48 ≤ c.toNat) && decide (c.toNat ≤ 57))
    || c == '-' || c == '_'

/-- Translation of `isValidAssignmentID` (main.go lines 766-787): byte
length 1..50, every rune in `[A-Za-z0-9_-]`, and the assignment must be
present and enabled in the registry. -/
def isValidAssignmentID (reg? : Option GraderRegistry) (assignmentID : String) : Bool :=
  if goLen assignmentID = 0 || 50 < goLen assignmentID then false
  else if !assignmentID.data.all assignmentCharOk then false
  else
    match getAssignmentConfig reg? assignmentID with
    | .ok _ => true
    | .error _ => false

/-- The character class of the SPEC's regex `[A-Za-z0-9_-]` (stated in the
regex's own order), for comparison with the source's check. -/
def specCharOk (c : Char) : Bool :=
  (decide (65 ≤ c.toNat) && decide (c.toNat ≤ 90))
    || (decide (97 ≤ c.toNat) && decide (c.toNat ≤ 122))
    || (decide (48 ≤ c.toNat) && decide (c.toNat ≤ 57))
    || c == '_' || c == '-'

/-- The SPEC's acceptance predicate for an assignment id: it matches
`^[A-Za-z0-9_-]{1,50}$` (1 to 50 characters, all in the class). -/
def specAssignmentIDOk (s : String) : Bool :=
  decide (1 ≤ s.data.length) && decide (s.data.length ≤ 50) && s.data.all specCharOk


/-! ## The submit pipeline (current handlers file, `submitHandler`) -/

/-- Outcome of the `/submit` handler (determines the HTTP status and which
early return fired). -/
inductive SubmitOutcome where
  | methodNotAllowed
  | contentLengthTooLarge
  | parseFormFailed
  | formFileMissing
  | fileTooLarge
  | workspaceError
  | readFileError
  | writeFileError
  | missingAssignment
  | invalidAssignment
  | accepted
deriving DecidableEq, Repr

/-- HTTP status code written by each outcome of `submitHandler`. -/
def statusCode : SubmitOutcome → Nat
  | .methodNotAllowed => 405
  | .contentLengthTooLarge => 400
  | .parseFormFailed => 400
  | .formFileMissing => 400
  | .fileTooLarge => 400
  | .workspaceError => 500
  | .readFileError => 500
  | .writeFileError => 500
  | .missingAssignment => 400
  | .invalidAssignment => 400
  | .accepted => 200

/-- Inputs of one `/submit` request.  `contentLength` is the value of the
`Content-Length` header when present and parseable by `strconv.ParseInt`
(`none` models both absence and a parse failure, which the source treats
alike); `parseFormOk` and `formFileOk` model the success of
`ParseMultipartForm` and `FormFile`; `size` is `header.Size`;
`assignmentID` is the resolution of `getAssignmentID` (form field, query
parameter, or `X-Assignment-ID` header; `""` when absent). -/
structure SubmitRequest where
  method : String
  contentLength : Option Int
  parseFormOk : Bool
  formFileOk : Bool
  filename : String
  size : Int
  assignmentID : String

/-- Success flags of the handler's filesystem calls. -/
structure FsEnv where
  mkdirSubmissionOk : Bool
  mkdirResultsOk : Bool
  readFileOk : Bool
  writeFileOk : Bool
deriving DecidableEq, Repr

/-- Server state touched by `/submit`: the in-memory job map and the set of
paths created on the shared volume (in creation order). -/
structure ServerState where
  jobs : String → Option Job
  files : List String

/-- The Content-Length pre-check of `submitHandler`: reject when the header
parsed and exceeds `config.MaxFileSize * 2` (int64 product). -/
def clRejected (maxFileSize : Int) (contentLength : Option Int) : Bool :=
  match contentLength with
  | some l => decide (wrap64 (maxFileSize * 2) < l)
  | none => false

/-- `config.MaxFileSize` as computed by `loadConfig` (config.go line 74):
the configured number of MiB times `1024 * 1024`, as int64. -/
def maxFileSizeBytes (mb : Int) : Int := wrap64 (mb * 1024 * 1024)

/-- Translation of the current `submitHandler`: method check, Content-Length
pre-check, multipart parse, form file, size check against
`config.MaxFileSize`, workspace directory creation, archive write, and only
then assignment-id resolution and validation, job creation and enqueue.
The queue channel send of `addJob` is not modelled (no claim concerns it);
`addJob` inserts the job into the map. -/
def submitHandler (maxFileSize : Int) (reg? : Option GraderRegistry) (env : FsEnv)
    (jobID : String) (now : Int) (req : SubmitRequest) (st : ServerState) :
    SubmitOutcome × ServerState :=
  if req.method != "POST" then (.methodNotAllowed, st)
  else if clRejected maxFileSize req.contentLength then (.contentLengthTooLarge, st)
  else if !req.parseFormOk then (.parseFormFailed, st)
  else if !req.formFileOk then (.formFileMissing, st)
  else if maxFileSize < req.size then (.fileTooLarge, st)
  else
    let jobWorkspace := "/workspace/jobs/" ++ jobID
    let submissionDir := jobWorkspace ++ "/submission"
    let resultsDir := jobWorkspace ++ "/results"
    if !env.mkdirSubmissionOk then (.workspaceError, st)
    else
      let st1 : ServerState := { st with files := st.files ++ [submissionDir] }
      if !env.mkdirResultsOk then (.workspaceError, st1)
      else
        let st2 : ServerState := { st1 with files := st1.files ++ [resultsDir] }
        let filePath := jobWorkspace ++ "/submission/submission.zip"
        if !env.readFileOk then (.readFileError, st2)
        else if !env.writeFileOk then (.writeFileError, st2)
        else
          let st3 : ServerState := { st2 with files := st2.files ++ [filePath] }
          if req.assignmentID == "" then (.missingAssignment, st3)
          else if !isValidAssignmentID reg? req.assignmentID then (.invalidAssignment, st3)
          else
            let job : Job :=
              { id := jobID
                filename := req.filename
                filePath := filePath
                size := req.size
                status := "queued"
                result := none
                createdAt := now
                updatedAt := now
                assignmentID := req.assignmentID
                username := "" }
            let st4 : ServerState :=
              { st3 with jobs := fun k => if k = jobID then some job else st3.jobs k }
            (.accepted, st4)

/-! ## Fixtures for the registry and submit claims -/

/-- An enabled assignment. -/
def acfgStub : AssignmentConfig :=
  { image := "demo/stub", description := "", timeoutMinutes := 1, enabled := true }

/-- A disabled assignment. -/
def acfgOff : AssignmentConfig :=
  { image := "demo/off", description := "", timeoutMinutes := 0, enabled := false }

/-- A registry with one enabled and one disabled assignment. -/
def regW : GraderRegistry := { assignments := [("test-stub", acfgStub), ("old-hw", acfgOff)] }

/-- All filesystem operations succeed. -/
def envAllOk : FsEnv :=
  { mkdirSubmissionOk := true, mkdirResultsOk := true, readFileOk := true, writeFileOk := true }

/-- Empty server state. -/
def stEmpty : ServerState := { jobs := fun _ => none, files := [] }

/-- An upload of exactly 50 MiB (the configured maximum). -/
def reqExactMax : SubmitRequest :=
  { method := "POST", contentLength := some 52500000, parseFormOk := true, formFileOk := true
    filename := "hello.zip", size := 52428800, assignmentID := "test-stub" }

/-- An upload one byte over the 50 MiB maximum. -/
def reqOverMax : SubmitRequest :=
  { method := "POST", contentLength := some 52500001, parseFormOk := true, formFileOk := true
    filename := "hello.zip", size := 52428801, assignmentID := "test-stub" }

/-- A request whose Content-Length exceeds twice the 50 MiB maximum. -/
def reqHugeCL : SubmitRequest :=
  { method := "POST", contentLength := some 104857601, parseFormOk := true, formFileOk := true
    filename := "hello.zip", size := 1024, assignmentID := "test-stub" }

/-- A well-formed upload naming an assignment that is not in the registry. -/
def reqBadAssign : SubmitRequest :=
  { method := "POST", contentLength := none, parseFormOk := true, formFileOk := true
    filename := "hello.zip", size := 1024, assignmentID := "no-such" }


/-! ## Dispatcher result collection (server/container.go) -/

/-- State of the results file `<workspace>/jobs/<id>/results/output.json` as
the dispatcher observes it: absent (`os.Stat` reports not-exist), unreadable
(`os.ReadFile` fails with a message), or present with contents. -/
inductive FileRead where
  | absent
  | readFailure (msg : String)
  | content (data : String)
deriving DecidableEq, Repr

/-- Translation of `readResultsFromSharedVolume` (container.go lines
192-224).  `parse` models `json.Unmarshal` into `JobResult` (library code:
`none` is a parse failure).  On parse success the source returns the parsed
result both when its `Error` field is set and when it is empty. -/
def readResultsFromSharedVolume (output : FileRead) (parse : String → Option JobResult) :
    JobResult :=
  match output with
  | .absent => { score := 0, feedback := "", error := "No output.json found in results directory" }
  | .readFailure msg => { score := 0, feedback := "", error := "Failed to read results file: " ++ msg }
  | .content data =>
      match parse data with
      | none => { score := 0, feedback := "", error := "Invalid results JSON: " ++ data }
      | some r => r

/-- Translation of the result arbitration of `runContainerGrader`
(container.go lines 119-147), entered once the container wait has returned
`exitCode`.  `logs` models `ContainerLogs` + `io.ReadAll` (`none` when the
log stream is `nil`).  Results are always read first; on a non-zero exit
the source falls back to the container logs only when the read error is
exactly the `No output.json found in results directory` sentinel. -/
def runContainerGrader (exitCode : Int) (output : FileRead)
    (parse : String → Option JobResult) (logs : Option String) : JobResult :=
  let result := readResultsFromSharedVolume output parse
  if exitCode != 0 then
    if result.error != "" && result.error == "No output.json found in results directory" then
      match logs with
      | some logData =>
          { score := 0, feedback := ""
            error := "Grader exited with code " ++ toString exitCode ++ ": " ++ logData }
      | none =>
          { score := 0, feedback := "", error := "Grader exited with code " ++ toString exitCode }
    else result
  else result

/-- Go `time.Duration(m) * time.Minute` in nanoseconds, as int64 (container.go
line 35). -/
def durationOfMinutes (m : Int) : Int := wrap64 (m * 60000000000)

/-- Translation of the timeout selection of `runContainerGrader`
(container.go lines 34-38): the assignment timeout, or the global
`config.GradingTimeout` when the computed duration is zero. -/
def effectiveTimeout (timeoutMinutes : Int) (gradingTimeout : Int) : Int :=
  if durationOfMinutes timeoutMinutes = 0 then gradingTimeout
  else durationOfMinutes timeoutMinutes

/-- A parse oracle that fails on every input (for concrete runs whose
`output.json` is not valid JSON). -/
def parseAlwaysFails : String → Option JobResult := fun _ => none

/-- A parse oracle recognising the single document `ok-doc` (for concrete
runs whose `output.json` is valid). -/
def parseOkDoc : String → Option JobResult := fun s =>
  if s == "ok-doc" then some { score := 100, feedback := "great", error := "" } else none

/-! ## Job store and worker (server/queue.go) -/

/-- Translation of `updateJob` (queue.go lines 66-75): if the id is mapped,
set status, result and `UpdatedAt`; otherwise do nothing. -/
def updateJob (jobs : String → Option Job) (jobID : String) (status : String)
    (result : Option JobResult) (now : Int) : String → Option Job :=
  match jobs jobID with
  | some job =>
      fun k =>
        if k = jobID then
          some { job with status := status, result := result, updatedAt := now }
        else jobs k
  | none => jobs

/-- The `updateJob` calls the worker performs for one popped job id, in
program order (queue.go lines 111-130): first `processing` with no result,
then `failed` with the result when `result.Error` is non-empty, else
`completed` with the result. -/
def workerUpdates (r : JobResult) : List (String × Option JobResult) :=
  ("processing", none) :: (if r.error != "" then [("failed", some r)] else [("completed", some r)])

/-- Every status a job ever carries, in order: `"queued"` at creation
(`submitHandler`), then the worker's updates. -/
def statusHistory (r : JobResult) : List String :=
  "queued" :: (workerUpdates r).map Prod.fst

/-- The transitions the claimed chain `queued → processing → {completed,
failed}` allows. -/
def forwardStep (a b : String) : Bool :=
  (a == "queued" && b == "processing")
    || (a == "processing" && (b == "completed" || b == "failed"))

/-- Terminal statuses. -/
def isTerminalStatus (s : String) : Bool := s == "completed" || s == "failed"

/-! ## Fixtures for the dispatcher and job-store claims -/

/-- A job record as `submitHandler` creates it. -/
def jobQueued : Job :=
  { id := "job-7", filename := "hello.zip", filePath := "/workspace/jobs/job-7/submission/submission.zip"
    size := 1024, status := "queued", result := none, createdAt := 5, updatedAt := 5
    assignmentID := "test-stub", username := "" }

/-- A one-job map. -/
def jobsOne : String → Option Job := fun k => if k = "job-7" then some jobQueued else none
/-! ## Theorems -/

theorem wrap64_eq_self {x : Int} (h1 : -(2 ^ 63) ≤ x) (h2 : x < 2 ^ 63) :
    wrap64 x = x := by
  unfold wrap64
  have h3 : (0 : Int) ≤ x + 2 ^ 63 := by linarith
  have h4 : x + 2 ^ 63 < 2 ^ 64 := by
    have : (2 : Int) ^ 64 = 2 ^ 63 + 2 ^ 63 := by norm_num
    linarith
  rw [Int.emod_eq_of_lt h3 h4]
  ring

theorem keyMatchLoop_iff (k : String) (l : List String) :
    keyMatchLoop k l = true ↔ k ∈ l := by
  induction l with
  | nil => simp [keyMatchLoop]
  | cons e rest ih =>
      by_cases h : k = e
      · simp [keyMatchLoop, h]
      · simp only [keyMatchLoop, beq_iff_eq, if_neg h, ih, List.mem_cons]
        exact ⟨fun hm => Or.inr hm, fun hm => hm.elim (fun he => absurd he h) id⟩

theorem ipWhitelistLoop_iff (ip : String) (l : List String) :
    ipWhitelistLoop ip l = true ↔ ∃ e, e ∈ l ∧ (ip = e ∨ cidrContains e ip = true) := by
  induction l with
  | nil => simp [ipWhitelistLoop]
  | cons e rest ih =>
      by_cases h1 : ip = e
      · simp [ipWhitelistLoop, h1]
      · by_cases h2 : cidrContains e ip = true
        · simp only [ipWhitelistLoop, beq_iff_eq, if_neg h1, if_pos h2, true_iff]
          exact ⟨e, List.mem_cons_self e rest, Or.inr h2⟩
        · simp only [ipWhitelistLoop, beq_iff_eq, if_neg h1, if_neg h2, ih]
          constructor
          · rintro ⟨x, hx, hor⟩
            exact ⟨x, List.mem_cons_of_mem e hx, hor⟩
          · rintro ⟨x, hx, hor⟩
            rcases List.mem_cons.mp hx with rfl | hx2
            · rcases hor with rfl | hc
              · exact absurd rfl h1
              · exact absurd hc h2
            · exact ⟨x, hx2, hor⟩

theorem localhostConfigured_iff (l : List String) :
    localhostConfigured l = true ↔ ∃ e, e ∈ l ∧ (e = "127.0.0.1" ∨ e = "localhost") := by
  induction l with
  | nil => simp [localhostConfigured]
  | cons e rest ih =>
      by_cases h : (e = "127.0.0.1" ∨ e = "localhost")
      · have hb : (e == "127.0.0.1" || e == "localhost") = true := by
          rcases h with rfl | rfl <;> rfl
        constructor
        · intro _
          exact ⟨e, List.mem_cons_self e rest, h⟩
        · intro _
          simp [localhostConfigured, hb]
      · have h1 : e ≠ "127.0.0.1" := fun he => h (Or.inl he)
        have h2 : e ≠ "localhost" := fun he => h (Or.inr he)
        have hb : localhostConfigured (e :: rest) = localhostConfigured rest := by
          simp [localhostConfigured, h1, h2]
        rw [hb, ih]
        constructor
        · rintro ⟨x, hx, hor⟩
          exact ⟨x, List.mem_cons_of_mem e hx, hor⟩
        · rintro ⟨x, hx, hor⟩
          rcases List.mem_cons.mp hx with rfl | hx2
          · exact absurd hor h
          · exact ⟨x, hx2, hor⟩

/-- C1: the spec says the admin endpoints `/config` and `/version` perform
the IP and API-key checks but skip the username check.  In the source,
however, `/config` is registered through `protectedEndpoint` (whose
`securityMiddleware` rejects a missing `X-Username` with 400) and `/version`
is registered with no middleware at all, while the purpose-built
`adminSecurityMiddleware` is wired to no route.  At the failing input (a
GET of `/config` from the allowlisted IP with the valid key and no
`X-Username` header) the server responds 400; the unused admin middleware
would have passed the same request. -/
theorem c1_admin_endpoints_username_check :
    routeSecurity cfgAdmin reqNoUsername "/config" = SecOutcome.badRequest400
    ∧ validateSourceIP cfgAdmin reqNoUsername = true
    ∧ authenticateRequest cfgAdmin reqNoUsername = true
    ∧ getUsername reqNoUsername = ""
    ∧ routeSecurity cfgAdmin reqBare "/version" = SecOutcome.passed
    ∧ adminSecurityMiddleware cfgAdmin reqNoUsername = SecOutcome.passed := by
  decide

/-- C2: functional behaviour of API-key authentication.  When
`require_api_key` is enabled, the supplied key (from `X-API-Key`, else from
`Authorization: Bearer`) authenticates iff it is one of `valid_api_keys`,
and the middleware answers 401 on no match.  The comparison itself, however,
is Go's plain `==` on strings (auth.go line 39), not the constant-time
equality the claim states; the embedding records its input-output behaviour
and evaluates it at the failing input `reqWrongKey`. -/
theorem c2_api_key_match_behaviour :
    (∀ (cfg : Config) (req : HttpRequest),
        authenticateRequest cfg req = true ↔
          (cfg.requireAPIKey = false ∨ suppliedAPIKey req ∈ cfg.validAPIKeys))
    ∧ suppliedAPIKey reqWrongKey = "wrong"
    ∧ securityMiddleware cfgKeyed reqWrongKey = SecOutcome.unauthorized401
    ∧ suppliedAPIKey reqBearer = "secret-key-1"
    ∧ authenticateRequest cfgKeyed reqBearer = true := by
  refine ⟨?_, by decide, by decide, by decide, by decide⟩
  intro cfg req
  cases hb : cfg.requireAPIKey <;> simp [authenticateRequest, hb, keyMatchLoop_iff]

/-- C3 counterexample: with `allowed_ips = ["127.0.0.1"]` and client IP
`::1`, the check passes (the localhost special case of auth.go lines 89-98)
although `::1` is not string-equal to any entry and no entry is a CIDR block
containing it — refuting the claimed if-and-only-if. -/
theorem c3_counterexample_localhost_special_case :
    cfgLocalhostOnly.allowedIPs = ["127.0.0.1"]
    ∧ getClientIP reqIPv6Loopback = "::1"
    ∧ validateSourceIP cfgLocalhostOnly reqIPv6Loopback = true
    ∧ getClientIP reqIPv6Loopback ≠ "127.0.0.1"
    ∧ cidrContains "127.0.0.1" (getClientIP reqIPv6Loopback) = false := by
  decide

/-- C3 (amended): if `allowed_ips` is empty every client IP is allowed.  If
it is non-empty, the check passes iff the client IP is string-equal to a
literal entry, or lies inside a CIDR entry, or the localhost exception
applies (client IP is `127.0.0.1`, `::1` or `localhost` and some entry is
`127.0.0.1` or `localhost`); otherwise the middleware responds 403. -/
theorem c3_ip_allowlist :
    ∀ (cfg : Config) (req : HttpRequest),
      (cfg.allowedIPs = [] → validateSourceIP cfg req = true)
      ∧ (cfg.allowedIPs ≠ [] →
          (validateSourceIP cfg req = true ↔
            (isLocalClient (getClientIP req) = true
              ∧ localhostConfigured cfg.allowedIPs = true)
            ∨ ∃ e, e ∈ cfg.allowedIPs
                ∧ (getClientIP req = e ∨ cidrContains e (getClientIP req) = true)))
      ∧ (req.method ≠ "OPTIONS" → validateSourceIP cfg req = false →
          securityMiddleware cfg req = SecOutcome.forbidden403) := by
  intro cfg req
  refine ⟨?_, ?_, ?_⟩
  · intro h
    simp [validateSourceIP, h]
  · intro h
    have hne : cfg.allowedIPs.isEmpty = false := by
      cases hc : cfg.allowedIPs with
      | nil => exact absurd hc h
      | cons a t => rfl
    unfold validateSourceIP
    simp only [hne, Bool.false_eq_true, if_false]
    by_cases hl : (isLocalClient (getClientIP req) && localhostConfigured cfg.allowedIPs) = true
    · simp only [hl, if_true, true_iff]
      exact Or.inl ⟨(Bool.and_eq_true _ _ |>.mp hl).1, (Bool.and_eq_true _ _ |>.mp hl).2⟩
    · simp only [hl, Bool.false_eq_true, if_false]
      rw [ipWhitelistLoop_iff]
      constructor
      · exact fun he => Or.inr he
      · rintro (⟨ha, hb⟩ | he)
        · exact absurd (Bool.and_eq_true _ _ |>.mpr ⟨ha, hb⟩) hl
        · exact he
  · intro hm hv
    have hm2 : (req.method == "OPTIONS") = false := beq_eq_false_iff_ne.mpr hm
    simp [securityMiddleware, hm2, hv]

/-- Witness for `c3_ip_allowlist` at concrete inputs: a client inside
`10.0.0.0/8` passes, a client outside it is answered 403. -/
theorem c3_ip_allowlist_witness :
    validateSourceIP cfgCIDR reqFromTen = true
    ∧ securityMiddleware cfgCIDR reqOutsideTen = SecOutcome.forbidden403 := by
  constructor
  · exact ((c3_ip_allowlist cfgCIDR reqFromTen).2.1 (by decide)).mpr
      (Or.inr ⟨"10.0.0.0/8", by decide, Or.inr (by decide)⟩)
  · exact (c3_ip_allowlist cfgCIDR reqOutsideTen).2.2 (by decide) (by decide)

theorem charOk_iff (c : Char) : assignmentCharOk c = true ↔ specCharOk c = true := by
  simp only [assignmentCharOk, specCharOk, Bool.or_eq_true, Bool.and_eq_true,
    decide_eq_true_eq, beq_iff_eq]
  tauto

theorem utf8Bytes_pos (c : Char) : 1 ≤ utf8Bytes c := by
  unfold utf8Bytes
  split_ifs <;> omega

theorem utf8Bytes_of_ok {c : Char} (h : assignmentCharOk c = true) : utf8Bytes c = 1 := by
  have hle : c.toNat ≤ 127 := by
    simp only [assignmentCharOk, Bool.or_eq_true, Bool.and_eq_true,
      decide_eq_true_eq, beq_iff_eq] at h
    rcases h with ((((⟨h1, h2⟩ | ⟨h1, h2⟩) | ⟨h1, h2⟩) | rfl) | rfl)
    · omega
    · omega
    · omega
    · decide
    · decide
  unfold utf8Bytes
  rw [if_pos hle]

theorem sum_utf8_of_ok :
    ∀ (cs : List Char), cs.all assignmentCharOk = true → (cs.map utf8Bytes).sum = cs.length := by
  intro cs
  induction cs with
  | nil => intro _; simp
  | cons c rest ih =>
      intro h
      simp only [List.all_cons, Bool.and_eq_true] at h
      simp [utf8Bytes_of_ok h.1, ih h.2]
      omega

theorem goLen_of_all_ok (s : String) (h : s.data.all assignmentCharOk = true) :
    goLen s = s.data.length := by
  unfold goLen
  exact sum_utf8_of_ok s.data h

theorem goLen_eq_zero_iff (s : String) : goLen s = 0 ↔ s.data = [] := by
  unfold goLen
  cases hc : s.data with
  | nil => simp
  | cons c rest =>
      have hp := utf8Bytes_pos c
      simp only [List.map_cons, List.sum_cons]
      constructor
      · intro h
        omega
      · intro h
        exact (List.cons_ne_nil c rest h).elim

theorem isValidAssignmentID_iff (reg : GraderRegistry) (s : String) :
    isValidAssignmentID (some reg) s = true ↔
      (specAssignmentIDOk s = true
        ∧ ∃ a, lookupAssignment reg.assignments s = some a ∧ a.enabled = true) := by
  unfold isValidAssignmentID
  split_ifs with h0 h1
  · apply iff_of_false (by simp)
    rintro ⟨hspec, -⟩
    simp only [specAssignmentIDOk, Bool.and_eq_true, decide_eq_true_eq,
      List.all_eq_true] at hspec
    obtain ⟨⟨hge, hle⟩, hall⟩ := hspec
    have hallgo : s.data.all assignmentCharOk = true := by
      simp only [List.all_eq_true]
      intro c hc
      exact (charOk_iff c).mpr (hall c hc)
    have hlen := goLen_of_all_ok s hallgo
    simp only [Bool.or_eq_true, decide_eq_true_eq] at h0
    rcases h0 with h0 | h0 <;> omega
  · apply iff_of_false (by simp)
    rintro ⟨hspec, -⟩
    simp only [specAssignmentIDOk, Bool.and_eq_true, decide_eq_true_eq,
      List.all_eq_true] at hspec
    obtain ⟨-, hall⟩ := hspec
    have hallgo : s.data.all assignmentCharOk = true := by
      simp only [List.all_eq_true]
      intro c hc
      exact (charOk_iff c).mpr (hall c hc)
    simp [hallgo] at h1
  · have hall : s.data.all assignmentCharOk = true := by
      revert h1
      cases s.data.all assignmentCharOk <;> simp
    have hlen := goLen_of_all_ok s hall
    simp only [Bool.or_eq_true, decide_eq_true_eq, not_or] at h0
    obtain ⟨h0a, h0b⟩ := h0
    have hspec : specAssignmentIDOk s = true := by
      simp only [specAssignmentIDOk, Bool.and_eq_true, decide_eq_true_eq, List.all_eq_true]
      refine ⟨⟨?_, ?_⟩, ?_⟩
      · have hz := (goLen_eq_zero_iff s).not.mpr ?_
        · omega
        · intro hnil
          exact h0a (by simp [goLen, hnil])
      · omega
      · intro c hc
        simp only [List.all_eq_true] at hall
        exact (charOk_iff c).mp (hall c hc)
    unfold getAssignmentConfig
    dsimp only
    cases hl : lookupAssignment reg.assignments s with
    | none =>
        apply iff_of_false (by simp)
        rintro ⟨-, a, ha, -⟩
        exact Option.noConfusion ha
    | some a =>
        cases ha : a.enabled
        · apply iff_of_false (by simp [ha])
          rintro ⟨-, a2, ha2, he2⟩
          rw [Option.some_inj] at ha2
          subst ha2
          rw [he2] at ha
          exact absurd ha (by decide)
        · apply iff_of_true
          · simp [ha]
          · exact ⟨hspec, a, rfl, ha⟩

/-- C4: confirmed.  `/submit` accepts a string as assignment id iff it
matches the spec regex `^[A-Za-z0-9_-]{1,50}$` and is a key of the registry
with `enabled: true`; and whenever the request reaches the assignment
validation (all earlier gates passed) with a missing or invalid id, the
response status is 400. -/
theorem c4_assignment_id_validation :
    (∀ (reg : GraderRegistry) (s : String),
        isValidAssignmentID (some reg) s = true ↔
          (specAssignmentIDOk s = true
            ∧ ∃ a, lookupAssignment reg.assignments s = some a ∧ a.enabled = true))
    ∧ (∀ (maxFS : Int) (reg? : Option GraderRegistry) (env : FsEnv) (jobID : String)
        (now : Int) (req : SubmitRequest) (st : ServerState),
        req.method = "POST" →
        clRejected maxFS req.contentLength = false →
        req.parseFormOk = true →
        req.formFileOk = true →
        ¬(maxFS < req.size) →
        env.mkdirSubmissionOk = true →
        env.mkdirResultsOk = true →
        env.readFileOk = true →
        env.writeFileOk = true →
        isValidAssignmentID reg? req.assignmentID = false →
        statusCode (submitHandler maxFS reg? env jobID now req st).1 = 400) := by
  constructor
  · exact fun reg s => isValidAssignmentID_iff reg s
  · intro maxFS reg? env jobID now req st h1 h2 h3 h4 h5 h6 h7 h8 h9 h10
    by_cases he : req.assignmentID = ""
    · simp [submitHandler, h1, h2, h3, h4, h6, h7, h8, h9, he, if_neg h5]
      rfl
    · have hne : (req.assignmentID == "") = false := beq_eq_false_iff_ne.mpr he
      simp [submitHandler, h1, h2, h3, h4, h6, h7, h8, h9, h10, hne, if_neg h5]
      rfl

/-- Witness for `c4_assignment_id_validation`: the concrete registry `regW`
accepts `test-stub`, and a request naming the absent id `no-such` is
answered 400. -/
theorem c4_assignment_id_validation_witness :
    isValidAssignmentID (some regW) "test-stub" = true
    ∧ statusCode
        (submitHandler (maxFileSizeBytes 50) (some regW) envAllOk "job-2" 0
          reqBadAssign stEmpty).1 = 400 := by
  constructor
  · exact (c4_assignment_id_validation.1 regW "test-stub").mpr
      ⟨by decide, acfgStub, by decide, by decide⟩
  · exact c4_assignment_id_validation.2 (maxFileSizeBytes 50) (some regW) envAllOk "job-2" 0
      reqBadAssign stEmpty (by decide) (by decide) (by decide) (by decide) (by decide)
      (by decide) (by decide) (by decide) (by decide) (by decide)

/-- C7: confirmed.  With `max_file_size_mb = mb` (so `config.MaxFileSize =
mb * 2^20` bytes), an upload whose parsed size is exactly `mb` MiB passes
the size check (the request proceeds to acceptance when everything else is
in order), an upload one byte larger is rejected with 400, and a request
whose Content-Length exceeds `2 * mb` MiB is rejected with 400 by the
pre-parse check regardless of all later inputs (in particular regardless of
whether the multipart form would parse).  The bound `mb < 2^40` keeps the
int64 products of the source exact. -/
theorem c7_upload_size_limits :
    ∀ (mb : Int) (reg? : Option GraderRegistry) (env : FsEnv) (jobID : String) (now : Int)
      (req : SubmitRequest) (st : ServerState) (l : Int),
      0 < mb → mb < 2 ^ 40 →
      ((req.method = "POST" →
        clRejected (maxFileSizeBytes mb) req.contentLength = false →
        req.parseFormOk = true →
        req.formFileOk = true →
        env.mkdirSubmissionOk = true →
        env.mkdirResultsOk = true →
        env.readFileOk = true →
        env.writeFileOk = true →
        isValidAssignmentID reg? req.assignmentID = true →
        req.assignmentID ≠ "" →
        ((req.size = mb * 1048576 →
            (submitHandler (maxFileSizeBytes mb) reg? env jobID now req st).1
              = SubmitOutcome.accepted)
          ∧ (req.size = mb * 1048576 + 1 →
            (submitHandler (maxFileSizeBytes mb) reg? env jobID now req st).1
              = SubmitOutcome.fileTooLarge)))
      ∧ (req.method = "POST" → req.contentLength = some l → mb * 1048576 * 2 < l →
          (submitHandler (maxFileSizeBytes mb) reg? env jobID now req st).1
            = SubmitOutcome.contentLengthTooLarge)
      ∧ statusCode SubmitOutcome.fileTooLarge = 400
      ∧ statusCode SubmitOutcome.contentLengthTooLarge = 400) := by
  intro mb reg? env jobID now req st l hpos hbound
  have hone : (0 : Int) < 1048576 := by norm_num
  have hup : mb * 1048576 < 2 ^ 60 := by
    have h := mul_lt_mul_of_pos_right hbound hone
    have : (2 : Int) ^ 40 * 1048576 = 2 ^ 60 := by norm_num
    linarith
  have hlow : (0 : Int) < mb * 1048576 := mul_pos hpos hone
  have hmfs : maxFileSizeBytes mb = mb * 1048576 := by
    unfold maxFileSizeBytes
    rw [show mb * 1024 * 1024 = mb * 1048576 by ring]
    apply wrap64_eq_self
    · have : -(2 ^ 63 : Int) < 0 := by norm_num
      linarith
    · have : (2 : Int) ^ 60 < 2 ^ 63 := by norm_num
      linarith
  have hcl2 : wrap64 (maxFileSizeBytes mb * 2) = mb * 1048576 * 2 := by
    rw [hmfs]
    apply wrap64_eq_self
    · have : -(2 ^ 63 : Int) < 0 := by norm_num
      linarith
    · have : (2 : Int) ^ 60 * 2 < 2 ^ 63 := by norm_num
      linarith
  refine ⟨?_, ?_, rfl, rfl⟩
  · intro h1 h2 h3 h4 h5 h6 h7 h8 h9 h10
    have hne : (req.assignmentID == "") = false := beq_eq_false_iff_ne.mpr h10
    constructor
    · intro hs
      have hns : ¬(maxFileSizeBytes mb < req.size) := by
        rw [hmfs, hs]
        exact lt_irrefl _
      simp [submitHandler, h1, h2, h3, h4, h5, h6, h7, h8, h9, hne, if_neg hns]
    · intro hs
      have hlt : maxFileSizeBytes mb < req.size := by
        rw [hmfs, hs]
        omega
      simp [submitHandler, h1, h2, h3, h4, if_pos hlt]
  · intro h1 hcl hl
    have hrej : clRejected (maxFileSizeBytes mb) req.contentLength = true := by
      rw [hcl]
      unfold clRejected
      rw [hcl2]
      exact decide_eq_true hl
    simp [submitHandler, h1, hrej]

/-- Witness for `c7_upload_size_limits` with `max_file_size_mb = 50`: an
upload of exactly 50 MiB is accepted, one of 50 MiB + 1 byte is rejected as
too large, and a Content-Length of `100 MiB + 1` is rejected pre-parse. -/
theorem c7_upload_size_limits_witness :
    (submitHandler (maxFileSizeBytes 50) (some regW) envAllOk "job-1" 0
        reqExactMax stEmpty).1 = SubmitOutcome.accepted
    ∧ (submitHandler (maxFileSizeBytes 50) (some regW) envAllOk "job-1" 0
        reqOverMax stEmpty).1 = SubmitOutcome.fileTooLarge
    ∧ (submitHandler (maxFileSizeBytes 50) (some regW) envAllOk "job-1" 0
        reqHugeCL stEmpty).1 = SubmitOutcome.contentLengthTooLarge := by
  refine ⟨?_, ?_, ?_⟩
  · exact ((c7_upload_size_limits 50 (some regW) envAllOk "job-1" 0 reqExactMax stEmpty 0
      (by decide) (by decide)).1 (by decide) (by decide) (by decide) (by decide) (by decide)
      (by decide) (by decide) (by decide) (by decide) (by decide)).1 (by decide)
  · exact ((c7_upload_size_limits 50 (some regW) envAllOk "job-1" 0 reqOverMax stEmpty 0
      (by decide) (by decide)).1 (by decide) (by decide) (by decide) (by decide) (by decide)
      (by decide) (by decide) (by decide) (by decide) (by decide)).2 (by decide)
  · exact (c7_upload_size_limits 50 (some regW) envAllOk "job-1" 0 reqHugeCL stEmpty 104857601
      (by decide) (by decide)).2.1 (by decide) (by decide) (by decide)

/-- C9: confirmed.  Whenever `/submit` rejects because the assignment id is
missing or invalid, the in-memory job map is exactly the one before the
request (in particular the fresh job id is unmapped), the response status
is 400, and the per-job workspace directories and the archive
`submission/submission.zip` have already been created on disk — a workspace
with no corresponding job record. -/
theorem c9_assignment_reject_leaves_orphan_workspace :
    ∀ (maxFS : Int) (reg? : Option GraderRegistry) (env : FsEnv) (jobID : String)
      (now : Int) (req : SubmitRequest) (st : ServerState),
      ((submitHandler maxFS reg? env jobID now req st).1 = SubmitOutcome.missingAssignment
        ∨ (submitHandler maxFS reg? env jobID now req st).1 = SubmitOutcome.invalidAssignment) →
      ((submitHandler maxFS reg? env jobID now req st).2.jobs = st.jobs
        ∧ (submitHandler maxFS reg? env jobID now req st).2.files
            = st.files ++ ["/workspace/jobs/" ++ jobID ++ "/submission",
                "/workspace/jobs/" ++ jobID ++ "/results",
                "/workspace/jobs/" ++ jobID ++ "/submission/submission.zip"]
        ∧ statusCode (submitHandler maxFS reg? env jobID now req st).1 = 400) := by
  intro maxFS reg? env jobID now req st h
  unfold submitHandler at h ⊢
  dsimp only at h ⊢
  by_cases c1 : (req.method != "POST") = true
  · rw [if_pos c1] at h
    rcases h with h | h <;> simp at h
  rw [if_neg c1] at h ⊢
  by_cases c2 : clRejected maxFS req.contentLength = true
  · rw [if_pos c2] at h
    rcases h with h | h <;> simp at h
  rw [if_neg c2] at h ⊢
  by_cases c3 : (!req.parseFormOk) = true
  · rw [if_pos c3] at h
    rcases h with h | h <;> simp at h
  rw [if_neg c3] at h ⊢
  by_cases c4 : (!req.formFileOk) = true
  · rw [if_pos c4] at h
    rcases h with h | h <;> simp at h
  rw [if_neg c4] at h ⊢
  by_cases c5 : maxFS < req.size
  · rw [if_pos c5] at h
    rcases h with h | h <;> simp at h
  rw [if_neg c5] at h ⊢
  by_cases c6 : (!env.mkdirSubmissionOk) = true
  · rw [if_pos c6] at h
    rcases h with h | h <;> simp at h
  rw [if_neg c6] at h ⊢
  by_cases c7 : (!env.mkdirResultsOk) = true
  · rw [if_pos c7] at h
    rcases h with h | h <;> simp at h
  rw [if_neg c7] at h ⊢
  by_cases c8 : (!env.readFileOk) = true
  · rw [if_pos c8] at h
    rcases h with h | h <;> simp at h
  rw [if_neg c8] at h ⊢
  by_cases c9 : (!env.writeFileOk) = true
  · rw [if_pos c9] at h
    rcases h with h | h <;> simp at h
  rw [if_neg c9] at h ⊢
  by_cases c10 : (req.assignmentID == "") = true
  · rw [if_pos c10] at h ⊢
    exact ⟨rfl, by simp, rfl⟩
  rw [if_neg c10] at h ⊢
  by_cases c11 : (!isValidAssignmentID reg? req.assignmentID) = true
  · rw [if_pos c11] at h ⊢
    exact ⟨rfl, by simp, rfl⟩
  · rw [if_neg c11] at h
    rcases h with h | h <;> simp at h

/-- Witness for `c9_assignment_reject_leaves_orphan_workspace`: a concrete
submit of an unknown assignment id leaves the job map empty while the three
workspace paths were created. -/
theorem c9_assignment_reject_witness :
    (submitHandler (maxFileSizeBytes 50) (some regW) envAllOk "job-2" 0
        reqBadAssign stEmpty).2.jobs = stEmpty.jobs
    ∧ (submitHandler (maxFileSizeBytes 50) (some regW) envAllOk "job-2" 0
        reqBadAssign stEmpty).2.files
      = stEmpty.files ++ ["/workspace/jobs/" ++ "job-2" ++ "/submission",
          "/workspace/jobs/" ++ "job-2" ++ "/results",
          "/workspace/jobs/" ++ "job-2" ++ "/submission/submission.zip"]
    ∧ statusCode (submitHandler (maxFileSizeBytes 50) (some regW) envAllOk "job-2" 0
        reqBadAssign stEmpty).1 = 400 :=
  c9_assignment_reject_leaves_orphan_workspace (maxFileSizeBytes 50) (some regW) envAllOk
    "job-2" 0 reqBadAssign stEmpty (Or.inr (by decide))

/-- C5 counterexample: with exit code 1, a results file that exists but does
not parse, and container logs available, the returned result echoes the raw
bytes (`Invalid results JSON: ...`) and is NOT the failure fabricated from
the container logs that the claim prescribes — the log fallback fires only
when the results file is absent. -/
theorem c5_counterexample_unparseable_output :
    runContainerGrader 1 (FileRead.content "garbage") parseAlwaysFails (some "CONTAINER LOGS")
      = { score := 0, feedback := "", error := "Invalid results JSON: garbage" }
    ∧ runContainerGrader 1 (FileRead.content "garbage") parseAlwaysFails (some "CONTAINER LOGS")
      ≠ { score := 0, feedback := "", error := "Grader exited with code 1: CONTAINER LOGS" } := by
  decide

/-- C5 (amended): after the container wait returns an exit code, the results
file is read regardless of the exit code; if it exists and parses (and its
error field is not the internal sentinel text), the parsed document is the
returned verdict even on non-zero exit; if it is absent and the exit code
is non-zero, the result is fabricated from the container logs; if it exists
but does not parse and the exit code is non-zero, the result echoes the raw
bytes and the logs are not consulted. -/
theorem c5_result_collection :
    ∀ (exitCode : Int) (parse : String → Option JobResult) (logs : Option String)
      (d : String) (r : JobResult) (logData : String),
      (parse d = some r → r.error ≠ "No output.json found in results directory" →
        runContainerGrader exitCode (FileRead.content d) parse logs = r)
      ∧ (exitCode ≠ 0 →
          runContainerGrader exitCode FileRead.absent parse (some logData)
            = { score := 0, feedback := ""
                error := "Grader exited with code " ++ toString exitCode ++ ": " ++ logData })
      ∧ (exitCode ≠ 0 → parse d = none →
          runContainerGrader exitCode (FileRead.content d) parse logs
            = { score := 0, feedback := "", error := "Invalid results JSON: " ++ d }) := by
  intro exitCode parse logs d r logData
  refine ⟨?_, ?_, ?_⟩
  · intro hp he
    have hsent : (r.error == "No output.json found in results directory") = false :=
      beq_eq_false_iff_ne.mpr he
    simp [runContainerGrader, readResultsFromSharedVolume, hp, hsent]
  · intro hz
    have hzz : (exitCode != 0) = true := bne_iff_ne.mpr hz
    unfold runContainerGrader readResultsFromSharedVolume
    rw [if_pos hzz]
    rfl
  · intro hz hp
    have hzz : (exitCode != 0) = true := bne_iff_ne.mpr hz
    have hne2 : (("Invalid results JSON: " ++ d)
        == "No output.json found in results directory") = false := by
      apply beq_eq_false_iff_ne.mpr
      intro hcontra
      have hdata := congrArg String.data hcontra
      rw [String.data_append] at hdata
      simp at hdata
    unfold runContainerGrader readResultsFromSharedVolume
    dsimp only
    rw [hp, if_pos hzz]
    simp [hne2]

/-- Witness for `c5_result_collection`: a parsed document survives a
non-zero exit, an absent file yields the log-fabricated failure, an
unparseable file echoes its bytes. -/
theorem c5_result_collection_witness :
    runContainerGrader 1 (FileRead.content "ok-doc") parseOkDoc (some "LOGS")
      = { score := 100, feedback := "great", error := "" }
    ∧ runContainerGrader 1 FileRead.absent parseOkDoc (some "LOGS")
      = { score := 0, feedback := "", error := "Grader exited with code 1: LOGS" }
    ∧ runContainerGrader 1 (FileRead.content "junk") parseOkDoc none
      = { score := 0, feedback := "", error := "Invalid results JSON: junk" } := by
  refine ⟨?_, ?_, ?_⟩
  · exact (c5_result_collection 1 parseOkDoc (some "LOGS") "ok-doc"
      { score := 100, feedback := "great", error := "" } "").1 (by decide) (by decide)
  · simpa using (c5_result_collection 1 parseOkDoc (some "LOGS") ""
      { score := 0, feedback := "", error := "" } "LOGS").2.1 (by decide)
  · simpa using (c5_result_collection 1 parseOkDoc none "junk"
      { score := 0, feedback := "", error := "" } "").2.2 (by decide) (by decide)

/-- C6 counterexample: with `timeout_minutes = -1` and a global grading
timeout of 5 minutes, the effective timeout is the negative duration
`-1 minute` (the source only falls back to the global value when the
computed duration is exactly zero), not the global timeout the claim
prescribes for every non-positive value. -/
theorem c6_counterexample_negative_timeout :
    effectiveTimeout (-1) (durationOfMinutes 5) = -60000000000
    ∧ durationOfMinutes 5 = 300000000000
    ∧ (-60000000000 : Int) ≠ 300000000000 := by
  decide

/-- C6 (amended): for registry values of ordinary magnitude
(`|timeout_minutes| < 2^27`, so the int64 product is exact), the effective
timeout equals `timeout_minutes` minutes whenever `timeout_minutes ≠ 0` —
including negative values, which produce an already-expired deadline — and
equals the global `config.GradingTimeout` exactly when
`timeout_minutes = 0`. -/
theorem c6_effective_timeout :
    ∀ (tm g : Int), -(2 ^ 27) < tm → tm < 2 ^ 27 →
      ((tm ≠ 0 → effectiveTimeout tm g = tm * 60000000000)
        ∧ (tm = 0 → effectiveTimeout tm g = g)) := by
  intro tm g h1 h2
  have hd : durationOfMinutes tm = tm * 60000000000 := by
    unfold durationOfMinutes
    apply wrap64_eq_self
    · have hm := mul_lt_mul_of_pos_right h1 (show (0 : Int) < 60000000000 by norm_num)
      have hb : -(2 ^ 63 : Int) ≤ -(2 ^ 27) * 60000000000 := by norm_num
      linarith
    · have hm := mul_lt_mul_of_pos_right h2 (show (0 : Int) < 60000000000 by norm_num)
      have hb : (2 ^ 27 : Int) * 60000000000 ≤ 2 ^ 63 := by norm_num
      linarith
  constructor
  · intro hz
    have hnz : durationOfMinutes tm ≠ 0 := by
      rw [hd]
      exact mul_ne_zero hz (by norm_num)
    unfold effectiveTimeout
    rw [if_neg hnz, hd]
  · intro hz
    subst hz
    have h0 : durationOfMinutes 0 = 0 := by decide
    simp [effectiveTimeout, h0]

/-- Witness for `c6_effective_timeout`: a 1-minute assignment timeout is
used as is; a zero timeout falls back to the 5-minute global value. -/
theorem c6_effective_timeout_witness :
    effectiveTimeout 1 300000000000 = 60000000000
    ∧ effectiveTimeout 0 300000000000 = 300000000000 := by
  constructor
  · simpa using (c6_effective_timeout 1 300000000000 (by decide) (by decide)).1 (by decide)
  · exact (c6_effective_timeout 0 300000000000 (by decide) (by decide)).2 rfl

/-- C8: confirmed.  For any grading result the worker may produce, the
complete status sequence of a job — `"queued"` at creation, then the
worker's two `updateJob` calls — steps only along
`queued → processing → {completed, failed}`, ends in a terminal status, and
passes through no terminal status before the end (so no transition leaves a
terminal state). -/
theorem c8_status_monotone :
    ∀ (r : JobResult),
      List.Chain' (fun a b => forwardStep a b = true) (statusHistory r)
      ∧ (∃ t, (statusHistory r).getLast? = some t ∧ isTerminalStatus t = true)
      ∧ (∀ s ∈ (statusHistory r).dropLast, isTerminalStatus s = false) := by
  intro r
  by_cases h : r.error = ""
  · have hlist : statusHistory r = ["queued", "processing", "completed"] := by
      simp [statusHistory, workerUpdates, h]
    rw [hlist]
    refine ⟨?_, ⟨"completed", by decide, by decide⟩, by decide⟩
    simp only [List.chain'_cons, List.chain'_singleton, and_true]
    exact ⟨by decide, by decide⟩
  · have hne : (r.error != "") = true := bne_iff_ne.mpr h
    have hlist : statusHistory r = ["queued", "processing", "failed"] := by
      simp [statusHistory, workerUpdates, hne]
    rw [hlist]
    refine ⟨?_, ⟨"failed", by decide, by decide⟩, by decide⟩
    simp only [List.chain'_cons, List.chain'_singleton, and_true]
    exact ⟨by decide, by decide⟩

/-- C10: confirmed.  `updateJob` with an unmapped id leaves the map
pointwise unchanged (and raises no error); with a mapped id it replaces
exactly the status, result and `updated_at` fields of that job — all other
fields are carried over from the old record — and leaves every other key
pointwise unchanged. -/
theorem c10_updateJob_frame :
    ∀ (jobs : String → Option Job) (jobID status : String) (result : Option JobResult)
      (now : Int),
      (jobs jobID = none → ∀ k, updateJob jobs jobID status result now k = jobs k)
      ∧ (∀ j, jobs jobID = some j →
          (updateJob jobs jobID status result now jobID
              = some { j with status := status, result := result, updatedAt := now }
            ∧ ∀ k, k ≠ jobID → updateJob jobs jobID status result now k = jobs k)) := by
  intro jobs jobID status result now
  constructor
  · intro h k
    unfold updateJob
    rw [h]
  · intro j h
    constructor
    · unfold updateJob
      rw [h]
      simp
    · intro k hk
      unfold updateJob
      rw [h]
      simp [hk]

/-- Witness for `c10_updateJob_frame`: updating a missing id leaves the
one-job map unchanged; updating `job-7` changes exactly its status, result
and timestamp and leaves other keys unchanged. -/
theorem c10_updateJob_frame_witness :
    updateJob jobsOne "missing" "processing" none 9 "job-7" = jobsOne "job-7"
    ∧ updateJob jobsOne "job-7" "processing" none 9 "job-7"
        = some { jobQueued with status := "processing", result := none, updatedAt := 9 }
    ∧ updateJob jobsOne "job-7" "processing" none 9 "other" = jobsOne "other" := by
  refine ⟨?_, ?_, ?_⟩
  · exact (c10_updateJob_frame jobsOne "missing" "processing" none 9).1 (by decide) "job-7"
  · exact ((c10_updateJob_frame jobsOne "job-7" "processing" none 9).2 jobQueued (by decide)).1
  · exact ((c10_updateJob_frame jobsOne "job-7" "processing" none 9).2 jobQueued
      (by decide)).2 "other" (by decide)

/-- Witness for `c2_api_key_match_behaviour`: the membership
characterisation applied at the Bearer-token request. -/
theorem c2_api_key_match_behaviour_witness :
    authenticateRequest cfgKeyed reqBearer = true :=
  (c2_api_key_match_behaviour.1 cfgKeyed reqBearer).mpr (Or.inr (by decide))

/-- Witness for `c8_status_monotone`: on the successful-result history the
non-final statuses are not terminal. -/
theorem c8_status_monotone_witness :
    isTerminalStatus "queued" = false :=
  (c8_status_monotone { score := 0, feedback := "", error := "" }).2.2 "queued" (by decide)
